import Mathlib

/-
Verification development for the ProcessMetrics monitor (src/monitor.py).

The monitoring core is the function `executar_monitoramento`: it launches the
target as `python <arquivo>`, then loops `while processo_alvo.poll() is None`,
each tick computing the elapsed time, checking the configured timeout, reading
memory/CPU of the target (and optionally of its descendant processes), and
appending the readings to `medidas_ram` / `medidas_cpu`; after the loop it
prints a results table and optionally writes a CSV file.

The embedding below models one run of that loop.  Machine floats are modelled
as rationals.  The outside world is a list of `Tique` records, one per loop
iteration, carrying what the OS reports on that iteration: whether a
KeyboardInterrupt was delivered, whether `poll()` returned an exit status,
the elapsed time `time.perf_counter() - inicio`, the target's metric reading
(`none` models `psutil` raising `NoSuchProcess` on the read), and the
enumerated descendant processes.  Because the Python code re-reads the global
`configuracoes` dict on every iteration, the loop takes the configuration as a
function from the iteration index to a `Configuracoes` value.
-/

namespace ProcessMetrics

/-- The global `configuracoes` dict of monitor.py (keys `logs_ativos`,
`intervalo_segundos`, `timeout_segundos`, `monitorar_subprocessos`,
`exportar_csv`).  `timeout_segundos` is `None` or a float; `none` models
`None`. -/
structure Configuracoes where
  logsAtivos : Bool
  intervaloSegundos : ℚ
  timeoutSegundos : Option ℚ
  monitorarSubprocessos : Bool
  exportarCSV : Bool
deriving DecidableEq

/-- The initial value of the `configuracoes` dict in monitor.py. -/
def configuracoesPadrao : Configuracoes :=
  { logsAtivos := true
    intervaloSegundos := 1
    timeoutSegundos := none
    monitorarSubprocessos := false
    exportarCSV := false }

/-- One descendant process as seen by the aggregation loop
`for filho in proc.children(recursive=True)`.  `memInfo` is the outcome of
`filho.memory_info().rss / 1024 / 1024` (in MB) and `cpuInfo` the outcome of
`filho.cpu_percent(interval=None)`; `none` models `psutil.NoSuchProcess`
being raised by that call because the descendant has exited. -/
structure Filho where
  memInfo : Option ℚ
  cpuInfo : Option ℚ
deriving DecidableEq

/-- What the environment reports on one iteration of the `while` loop:
`interrompido` — a KeyboardInterrupt is delivered on this iteration;
`encerrado` — `processo_alvo.poll()` returns a non-`None` exit status;
`tempoExec` — `time.perf_counter() - inicio` at this iteration;
`amostraPrincipal` — outcome of reading `proc.memory_info().rss / 1024 / 1024`
and `proc.cpu_percent(interval=None)` for the target itself (`none` models
`psutil.NoSuchProcess` raised because the target vanished after the `poll()`
check); `filhos` — the enumerated descendant processes. -/
structure Tique where
  interrompido : Bool
  encerrado : Bool
  tempoExec : ℚ
  amostraPrincipal : Option (ℚ × ℚ)
  filhos : List Filho
deriving DecidableEq

/-- The Python truthiness test
`configuracoes["timeout_segundos"] and tempo_exec > configuracoes["timeout_segundos"]`:
`None` and `0.0` are falsy, so the timeout branch fires only when the value is
set, nonzero, and exceeded. -/
def timeoutExpirado : Option ℚ → ℚ → Bool
  | none, _ => false
  | some t, e => !decide (t = 0) && decide (t < e)

/-- Rounding to 2 decimal places; models the format spec `:.2f` applied to a
sample value in the CSV row. -/
def arred2 (x : ℚ) : ℚ := (round (100 * x) : ℤ) / 100

/-- Rounding to 1 decimal place; models the format spec `:.1f` applied to the
CPU value in the CSV row. -/
def arred1 (x : ℚ) : ℚ := (round (10 * x) : ℤ) / 10

/-- One CSV data row `f"{tempo_exec:.2f},{mem:.2f},{cpu:.1f}"`, represented by
the three numeric values a parser recovers from the formatted text. -/
def linhaCSV (t m c : ℚ) : ℚ × ℚ × ℚ := (arred2 t, arred2 m, arred1 c)

/-- The CSV header line written by
`f.write("tempo_segundos,ram_mb,cpu_percent\n")`. -/
def cabecalhoCSV : String := "tempo_segundos,ram_mb,cpu_percent"

/-- `sum(medidas) / len(medidas)` from the report block (lines 454/456) and
the per-tick log (lines 429/430). -/
def media (l : List ℚ) : ℚ := l.sum / l.length

/-- Python's builtin `max` over a list of floats, as used in
`max(medidas_ram)` / `max(medidas_cpu)` (lines 455/457).  On `[]` Python's
`max` raises; the code only calls it under the `if medidas_ram:` guard, and
the `[]` case below is an arbitrary default. -/
def pico : List ℚ → ℚ
  | [] => 0
  | x :: xs => xs.foldl max x

/-- One step of the descendant-aggregation loop body
`try: mem += filho.memory_info()...; cpu += filho.cpu_percent(...)
except psutil.NoSuchProcess: pass`.  If the memory read raises, neither value
is accumulated; if the memory read succeeds and the CPU read raises, the
memory contribution has already been added. -/
def acumularFilho (mc : ℚ × ℚ) (f : Filho) : ℚ × ℚ :=
  match f.memInfo with
  | none => mc
  | some m =>
    match f.cpuInfo with
    | none => (mc.1 + m, mc.2)
    | some c => (mc.1 + m, mc.2 + c)

/-- The whole `for filho in proc.children(recursive=True)` aggregation,
starting from the target's own reading `(m0, c0)`. -/
def agregarFilhos (m0 c0 : ℚ) (filhos : List Filho) : ℚ × ℚ :=
  filhos.foldl acumularFilho (m0, c0)

/-- The mutable run state of `executar_monitoramento`: the accumulator lists
`medidas_ram`, `medidas_cpu`, `dados_csv`, plus the emitted per-tick log lines
(elapsed, mem, running mean mem, cpu, running mean cpu) and the arguments
passed to `time.sleep`, recorded to make the per-tick configuration reads
observable. -/
structure EstadoExecucao where
  medidasRAM : List ℚ
  medidasCPU : List ℚ
  dadosCSV : List (ℚ × ℚ × ℚ)
  registros : List (ℚ × ℚ × ℚ × ℚ × ℚ)
  pausas : List ℚ
deriving DecidableEq

/-- The state at `inicio = time.perf_counter()`: all accumulators empty. -/
def estadoInicial : EstadoExecucao := ⟨[], [], [], [], []⟩

/-- How the loop ended.  `concluido` — `poll()` returned an exit status
(normal completion); `timeout` — the timeout branch fired; `interrompido` —
`KeyboardInterrupt` was caught; `excecao` — an exception raised by reading the
target's metrics propagated uncaught out of the function; `semEventos` — the
supplied event trace ended with the loop still running. -/
inductive Motivo
  | concluido
  | timeout
  | interrompido
  | excecao
  | semEventos
deriving DecidableEq

/-- Result of the loop: the final accumulator state, how the loop ended, and
whether `processo_alvo.terminate()` was called on the way out. -/
structure ResultadoLoop where
  estado : EstadoExecucao
  motivo : Motivo
  terminateChamado : Bool
deriving DecidableEq

/-- The body of one sampled tick once the target's reading `(m0, c0)` is in
hand: optionally aggregate descendants, append to `medidas_ram` /
`medidas_cpu`, optionally append the formatted CSV row, optionally emit the
log line, then `time.sleep(configuracoes["intervalo_segundos"])`. -/
def passoAmostra (c : Configuracoes) (t : Tique) (m0 c0 : ℚ)
    (st : EstadoExecucao) : EstadoExecucao :=
  let mc := if c.monitorarSubprocessos then agregarFilhos m0 c0 t.filhos else (m0, c0)
  let ram := st.medidasRAM ++ [mc.1]
  let cpu := st.medidasCPU ++ [mc.2]
  { medidasRAM := ram
    medidasCPU := cpu
    dadosCSV := st.dadosCSV ++
      (if c.exportarCSV then [linhaCSV t.tempoExec mc.1 mc.2] else [])
    registros := st.registros ++
      (if c.logsAtivos then [(t.tempoExec, mc.1, media ram, mc.2, media cpu)] else [])
    pausas := st.pausas ++ [c.intervaloSegundos] }

/-- The monitoring loop of `executar_monitoramento` (lines 401-445).  `cfg i`
is the value of the global `configuracoes` dict as read on iteration `i` —
the code re-reads the global every tick, so a mid-run mutation is modelled by
a non-constant `cfg`.  Order of checks per tick, as in the source: the
`while processo_alvo.poll() is None` condition first (with a pending
KeyboardInterrupt observed at the same point), then the timeout test, then
the metric read; a `NoSuchProcess` on the target's own read is caught by no
handler (`except KeyboardInterrupt` does not match it) and ends the run
exceptionally. -/
def rodarLoop (cfg : Nat → Configuracoes) :
    List Tique → Nat → EstadoExecucao → ResultadoLoop
  | [], _, st => ⟨st, Motivo.semEventos, false⟩
  | t :: resto, i, st =>
    let c := cfg i
    if t.interrompido then ⟨st, Motivo.interrompido, true⟩
    else if t.encerrado then ⟨st, Motivo.concluido, false⟩
    else if timeoutExpirado c.timeoutSegundos t.tempoExec then
      ⟨st, Motivo.timeout, true⟩
    else
      match t.amostraPrincipal with
      | none => ⟨st, Motivo.excecao, false⟩
      | some mc => rodarLoop cfg resto (i + 1) (passoAmostra c t mc.1 mc.2 st)

/-- The final report computed in the `if medidas_ram:` block
(lines 454-466): total elapsed time, mean and peak RAM, mean and peak CPU. -/
structure Resumo where
  tempoTotal : ℚ
  ramMedia : ℚ
  ramPico : ℚ
  cpuMedia : ℚ
  cpuPico : ℚ
deriving DecidableEq

/-- `ram_media = sum(medidas_ram) / len(medidas_ram)`,
`ram_pico = max(medidas_ram)`, `cpu_media = sum(medidas_cpu) /
len(medidas_cpu)`, `cpu_pico = max(medidas_cpu)` (lines 454-457). -/
def montarResumo (tempoTotal : ℚ) (ram cpu : List ℚ) : Resumo :=
  ⟨tempoTotal, media ram, pico ram, media cpu, pico cpu⟩

/-- The operator-visible messages of the finalization block (lines 447-478),
abstracted from their text: the results table, the CSV-export confirmation
box, and the unconditional closing line `Processo finalizado.`. -/
inductive MensagemFinal
  | resultados (r : Resumo)
  | exportado
  | finalizado
deriving DecidableEq

/-- The finalization of `executar_monitoramento` after the loop: results
table and CSV export only under the `if medidas_ram:` guard (and the export
additionally under `if configuracoes["exportar_csv"]:`), then always the
closing line. -/
def mensagensFinais (c : Configuracoes) (ram cpu : List ℚ)
    (tempoTotal : ℚ) : List MensagemFinal :=
  (if ram.isEmpty then []
   else
     [MensagemFinal.resultados (montarResumo tempoTotal ram cpu)] ++
       (if c.exportarCSV then [MensagemFinal.exportado] else [])) ++
  [MensagemFinal.finalizado]

/-- The extension check `arquivo.endswith('.py')` uses this literal suffix. -/
def extensaoPy : String := ".py"

/-- The interpreter name in `subprocess.Popen(["python", arquivo])`. -/
def interpretador : String := "python"

/-- Helper for `terminaCom`: whether the first character list is a prefix of
the second. -/
def prefixoLista : List Char → List Char → Bool
  | [], _ => true
  | _ :: _, [] => false
  | c :: cs, d :: ds => decide (c = d) && prefixoLista cs ds

/-- Python's `a.endswith(sufixo)`: the suffix test, expressed over the
character sequences of the two strings. -/
def terminaCom (a sufixo : String) : Bool :=
  prefixoLista sufixo.data.reverse a.data.reverse

/-- Lines 377-378: `if not arquivo.endswith('.py'): arquivo += '.py'`. -/
def ajustarArquivo (a : String) : String :=
  if terminaCom a extensaoPy then a else a ++ extensaoPy

/-- Line 381: the argument vector of `subprocess.Popen(["python", arquivo])`
after the extension adjustment. -/
def comandoLancamento (a : String) : List String :=
  [interpretador, ajustarArquivo a]

/-- A target-file name already carrying the `.py` extension, for concrete
evaluation. -/
def arquivoExemplo : String := "teste.py"

/-- A target-file name without the `.py` extension, for concrete
evaluation. -/
def nomeExemplo : String := "teste"

/-- A tick on which nothing terminal happens and the target reads 2 MB RAM
and 3 percent CPU, for concrete evaluation. -/
def tiqueExemplo : Tique := ⟨false, false, 1, some (2, 3), []⟩

/-- A family of non-terminal ticks with a given elapsed time, for concrete
evaluation. -/
def tiqueLimpo (te : ℚ) : Tique := ⟨false, false, te, some (2, 3), []⟩

/-- A tick on which `poll()` reports that the target has exited, for concrete
evaluation. -/
def tiqueEncerrado : Tique := ⟨false, true, 3, none, []⟩

theorem le_foldl_max (xs : List ℚ) (a : ℚ) : a ≤ xs.foldl max a := by
  induction xs generalizing a with
  | nil => exact le_refl a
  | cons y ys ih => exact le_trans (le_max_left a y) (ih (max a y))

theorem mem_le_foldl_max (xs : List ℚ) (a x : ℚ) (hx : x ∈ xs) :
    x ≤ xs.foldl max a := by
  induction xs generalizing a with
  | nil => cases hx
  | cons y ys ih =>
    rcases List.mem_cons.mp hx with h | h
    · subst h
      exact le_trans (le_max_right a x) (le_foldl_max ys (max a x))
    · exact ih (max a y) h

theorem foldl_max_eq_or_mem (xs : List ℚ) (a : ℚ) :
    xs.foldl max a = a ∨ xs.foldl max a ∈ xs := by
  induction xs generalizing a with
  | nil => exact Or.inl rfl
  | cons y ys ih =>
    rcases ih (max a y) with h | h
    · rw [List.foldl_cons, h]
      rcases max_choice a y with h' | h'
      · exact Or.inl h'
      · exact Or.inr (by rw [h']; exact List.mem_cons_self y ys)
    · exact Or.inr (List.mem_cons_of_mem y h)

theorem pico_mem (l : List ℚ) (h : l ≠ []) : pico l ∈ l := by
  cases l with
  | nil => exact absurd rfl h
  | cons x xs =>
    show xs.foldl max x ∈ x :: xs
    rcases foldl_max_eq_or_mem xs x with h' | h'
    · rw [h']; exact List.mem_cons_self x xs
    · exact List.mem_cons_of_mem x h'

theorem le_pico (l : List ℚ) (x : ℚ) (hx : x ∈ l) : x ≤ pico l := by
  cases l with
  | nil => cases hx
  | cons y ys =>
    show x ≤ ys.foldl max y
    rcases List.mem_cons.mp hx with h | h
    · subst h; exact le_foldl_max ys x
    · exact mem_le_foldl_max ys y x h

theorem media_nonneg (l : List ℚ) (h0 : ∀ x ∈ l, 0 ≤ x) : 0 ≤ media l :=
  div_nonneg (List.sum_nonneg h0) (Nat.cast_nonneg l.length)

theorem media_le_pico (l : List ℚ) (h : l ≠ []) : media l ≤ pico l := by
  have hlen : 0 < (l.length : ℚ) := by
    exact_mod_cast List.length_pos.mpr h
  have hsum : l.sum ≤ (l.length : ℚ) * pico l := by
    have h1 := List.sum_le_card_nsmul l (pico l) (fun x hx => le_pico l x hx)
    rwa [nsmul_eq_mul] at h1
  rw [media, div_le_iff₀ hlen]
  linarith

theorem arred2_prox (x : ℚ) : |arred2 x - x| ≤ 1 / 200 := by
  have h := abs_sub_round (100 * x)
  have he : arred2 x - x = -((100 * x - (round (100 * x) : ℤ)) / 100) := by
    rw [arred2]; ring
  rw [he, abs_neg, abs_div]
  have h100 : |(100 : ℚ)| = 100 := by norm_num
  rw [h100]
  linarith

theorem arred1_prox (x : ℚ) : |arred1 x - x| ≤ 1 / 20 := by
  have h := abs_sub_round (10 * x)
  have he : arred1 x - x = -((10 * x - (round (10 * x) : ℤ)) / 10) := by
    rw [arred1]; ring
  rw [he, abs_neg, abs_div]
  have h10 : |(10 : ℚ)| = 10 := by norm_num
  rw [h10]
  linarith

theorem acumularFilho_none (mc : ℚ × ℚ) (q : Option ℚ) :
    acumularFilho mc ⟨none, q⟩ = mc := rfl

theorem passoAmostra_timeout (c : Configuracoes) (x : Option ℚ) (t : Tique)
    (m0 c0 : ℚ) (st : EstadoExecucao) :
    passoAmostra { c with timeoutSegundos := x } t m0 c0 st
      = passoAmostra c t m0 c0 st := rfl

theorem timeoutExpirado_zero (e : ℚ) : timeoutExpirado (some 0) e = false := rfl

theorem rodarLoop_csv_len (c : Configuracoes) (hc : c.exportarCSV = true)
    (tiques : List Tique) : ∀ (i : Nat) (st : EstadoExecucao),
    st.dadosCSV.length = st.medidasRAM.length →
    (rodarLoop (fun _ => c) tiques i st).estado.dadosCSV.length
      = (rodarLoop (fun _ => c) tiques i st).estado.medidasRAM.length := by
  induction tiques with
  | nil => intro i st h; exact h
  | cons t resto ih =>
    intro i st h
    cases hI : t.interrompido with
    | true => simp [rodarLoop, hI, h]
    | false =>
      cases hE : t.encerrado with
      | true => simp [rodarLoop, hI, hE, h]
      | false =>
        by_cases hT : timeoutExpirado c.timeoutSegundos t.tempoExec = true
        · simp [rodarLoop, hI, hE, hT, h]
        · cases hA : t.amostraPrincipal with
          | none => simp [rodarLoop, hI, hE, hT, hA, h]
          | some mc =>
            simp only [rodarLoop, hI, hE, hT, hA, Bool.false_eq_true, if_false]
            exact ih (i + 1) (passoAmostra c t mc.1 mc.2 st)
              (by simp [passoAmostra, hc, h])

/-- C1 (counterexample): the claim says that a target that becomes
inaccessible between the liveness check and the metric read is treated as
normal termination (`Completed`) and that the loop never crashes.  On a tick
where `poll()` still returns `None` but the metric read raises
`psutil.NoSuchProcess`, no handler catches the exception (`except
KeyboardInterrupt` does not match it): the run ends exceptionally
(`Motivo.excecao`), not as `Motivo.concluido`. -/
theorem c1_contraexemplo :
    rodarLoop (fun _ => configuracoesPadrao)
        [({ interrompido := false, encerrado := false, tempoExec := 1,
            amostraPrincipal := none, filhos := [] } : Tique)] 0 estadoInicial
      = ⟨estadoInicial, Motivo.excecao, false⟩ ∧
    Motivo.excecao ≠ Motivo.concluido := by
  exact ⟨by decide, by decide⟩

/-- C1 (amended): on any tick where the interrupt, exit and timeout checks
all pass but the target's own metric read fails, the run ends with an
uncaught exception (`Motivo.excecao`): no `Completed` transition, no
`terminate()` call, no sample recorded.  Normal completion happens only via
the `poll()` check at the top of a tick; launch failures are reported
separately before the loop starts. -/
theorem c1_emendado (cfg : Nat → Configuracoes) (t : Tique)
    (resto : List Tique) (i : Nat) (st : EstadoExecucao)
    (hI : t.interrompido = false) (hE : t.encerrado = false)
    (hT : timeoutExpirado (cfg i).timeoutSegundos t.tempoExec = false)
    (hA : t.amostraPrincipal = none) :
    rodarLoop cfg (t :: resto) i st = ⟨st, Motivo.excecao, false⟩ := by
  simp [rodarLoop, hI, hE, hT, hA]

/-- C1 (witness): concrete run of the amended theorem: first tick with the
target still unreaped by `poll()` but gone at the metric read. -/
theorem c1_emendado_testemunha :
    rodarLoop (fun _ => configuracoesPadrao)
        [({ interrompido := false, encerrado := false, tempoExec := 1,
            amostraPrincipal := none, filhos := [] } : Tique)] 0 estadoInicial
      = ⟨estadoInicial, Motivo.excecao, false⟩ :=
  c1_emendado (fun _ => configuracoesPadrao)
    { interrompido := false, encerrado := false, tempoExec := 1,
      amostraPrincipal := none, filhos := [] }
    [] 0 estadoInicial rfl rfl rfl rfl

/-- C2 (counterexample): the claim says both checks run on every tick with
the timeout check first, and that whenever the timeout has expired the loop
issues `terminate()` and exits without sampling.  In the source the
`while processo_alvo.poll() is None` exit check comes first: on a tick where
the process has exited AND the timeout (set to 1s, elapsed 10s) has expired,
the run ends `concluido` and `terminate()` is never called. -/
theorem c2_contraexemplo :
    timeoutExpirado (some 1) 10 = true ∧
    rodarLoop (fun _ => { configuracoesPadrao with timeoutSegundos := some 1 })
        [({ interrompido := false, encerrado := true, tempoExec := 10,
            amostraPrincipal := some (1, 1), filhos := [] } : Tique)] 0 estadoInicial
      = ⟨estadoInicial, Motivo.concluido, false⟩ := by
  exact ⟨by decide, by decide⟩

/-- C2 (amended): the process-exit check is the `while` condition and is
evaluated first on every tick; if it reports exit the loop ends `concluido`
without consulting the timeout.  Only when the process is still running is
the timeout checked, and an expired timeout then issues `terminate()` and
exits the loop with the state unchanged — no sample is taken on that tick. -/
theorem c2_emendado (cfg : Nat → Configuracoes) (t : Tique)
    (resto : List Tique) (i : Nat) (st : EstadoExecucao)
    (hI : t.interrompido = false) :
    (t.encerrado = true →
      rodarLoop cfg (t :: resto) i st = ⟨st, Motivo.concluido, false⟩) ∧
    (t.encerrado = false →
      timeoutExpirado (cfg i).timeoutSegundos t.tempoExec = true →
      rodarLoop cfg (t :: resto) i st = ⟨st, Motivo.timeout, true⟩) := by
  constructor
  · intro hE; simp [rodarLoop, hI, hE]
  · intro hE hT; simp [rodarLoop, hI, hE, hT]

/-- C2 (witness): concrete timeout run: one-second timeout, ten seconds
elapsed, process still running — the loop terminates the target and exits
with no sample recorded. -/
theorem c2_emendado_testemunha :
    rodarLoop (fun _ => { configuracoesPadrao with timeoutSegundos := some 1 })
        [({ interrompido := false, encerrado := false, tempoExec := 10,
            amostraPrincipal := some (1, 1), filhos := [] } : Tique)] 0 estadoInicial
      = ⟨estadoInicial, Motivo.timeout, true⟩ :=
  (c2_emendado (fun _ => { configuracoesPadrao with timeoutSegundos := some 1 })
    { interrompido := false, encerrado := false, tempoExec := 10,
      amostraPrincipal := some (1, 1), filhos := [] }
    [] 0 estadoInicial rfl).2 rfl (by decide)

/-- C3 (counterexample): the claim says a zero-sample run reports a distinct
"no data" outcome to the operator.  In the source the `if medidas_ram:`
guard simply skips the whole results block: the finalization of an empty run
emits only the generic closing line `Processo finalizado.`, which every run
emits — no message distinguishes the no-data case. -/
theorem c3_contraexemplo :
    mensagensFinais configuracoesPadrao [] [] 1 = [MensagemFinal.finalizado] ∧
    MensagemFinal.finalizado ∈ mensagensFinais configuracoesPadrao [5] [5] 1 := by
  exact ⟨rfl, by decide⟩

/-- C3 (amended): a run that ends with zero samples does not crash and never
divides by zero — the mean is computed only under the `if medidas_ram:`
guard — and produces no numeric report and no CSV export; but the only
operator-visible output of the finalization is the generic closing line, with
no distinct "no data" outcome.  A target that exits within the first
interval (exit observed by `poll()` on the first tick) indeed yields such a
zero-sample `concluido` run. -/
theorem c3_emendado (c : Configuracoes) (cpu : List ℚ) (tempoTotal te : ℚ) :
    mensagensFinais c [] cpu tempoTotal = [MensagemFinal.finalizado] ∧
    rodarLoop (fun _ => c)
        [({ interrompido := false, encerrado := true, tempoExec := te,
            amostraPrincipal := none, filhos := [] } : Tique)] 0 estadoInicial
      = ⟨estadoInicial, Motivo.concluido, false⟩ := by
  exact ⟨rfl, by simp [rodarLoop]⟩

/-- C4 (counterexample): the claim says mutating the global settings after a
run has started never affects the in-progress run.  The loop re-reads the
global `configuracoes` dict on every iteration: two runs over the same
process trace whose configurations are equal when the run starts, one of
which has its timeout set to 1s from the second tick on, produce different
results (the mutated run times out; the untouched one completes). -/
theorem c4_contraexemplo :
    (fun _ : Nat => configuracoesPadrao) 0
      = (fun i : Nat =>
          if i = 0 then configuracoesPadrao
          else { configuracoesPadrao with timeoutSegundos := some 1 }) 0 ∧
    rodarLoop (fun _ => configuracoesPadrao)
        [tiqueLimpo (1 / 2), tiqueLimpo 2, tiqueEncerrado] 0 estadoInicial
      ≠ rodarLoop (fun i =>
          if i = 0 then configuracoesPadrao
          else { configuracoesPadrao with timeoutSegundos := some 1 })
        [tiqueLimpo (1 / 2), tiqueLimpo 2, tiqueEncerrado] 0 estadoInicial := by
  exact ⟨rfl, by decide⟩

/-- C4 (amended): configuration is not snapshotted at run start — the loop
reads the global settings anew on each iteration, so a run's behaviour and
result are determined exactly by the per-tick configuration values read
during it: two runs over the same process trace whose configuration reads
agree on every iteration of the run are identical. -/
theorem c4_emendado (cfg cfg' : Nat → Configuracoes) (tiques : List Tique)
    (i : Nat) (st : EstadoExecucao)
    (h : ∀ j, j < tiques.length → cfg (i + j) = cfg' (i + j)) :
    rodarLoop cfg tiques i st = rodarLoop cfg' tiques i st := by
  induction tiques generalizing i st with
  | nil => rfl
  | cons t resto ih =>
    have h0 : cfg i = cfg' i := by simpa using h 0 (by simp)
    have h' : ∀ j, j < resto.length → cfg (i + 1 + j) = cfg' (i + 1 + j) := by
      intro j hj
      have hlt : j + 1 < (t :: resto).length := by
        simpa using Nat.succ_lt_succ hj
      have := h (j + 1) hlt
      have he : i + (j + 1) = i + 1 + j := by omega
      rwa [he] at this
    cases hI : t.interrompido with
    | true => simp [rodarLoop, hI]
    | false =>
      cases hE : t.encerrado with
      | true => simp [rodarLoop, hI, hE]
      | false =>
        cases hA : t.amostraPrincipal with
        | none => simp [rodarLoop, hI, hE, hA, h0]
        | some mc => simp [rodarLoop, hI, hE, hA, h0, ih (i + 1) _ h']

/-- C4 (witness): concrete one-tick run where the configuration function is
mutated only from the second read on (never consulted by this run), applied
through the amended theorem. -/
theorem c4_emendado_testemunha :
    rodarLoop (fun _ => configuracoesPadrao) [tiqueExemplo] 0 estadoInicial
      = rodarLoop (fun i =>
          if i = 0 then configuracoesPadrao
          else { configuracoesPadrao with logsAtivos := false })
        [tiqueExemplo] 0 estadoInicial :=
  c4_emendado (fun _ => configuracoesPadrao)
    (fun i =>
      if i = 0 then configuracoesPadrao
      else { configuracoesPadrao with logsAtivos := false })
    [tiqueExemplo] 0 estadoInicial
    (by intro j hj; simp at hj; subst hj; rfl)

/-- C5 (confirmed): for N ≥ 1 samples of non-negative values, the reported
peak (`max(medidas)`) is the maximum over all appended values — it is one of
them and bounds them all — the reported mean is `sum(medidas) /
len(medidas)`, and peak ≥ mean ≥ 0; both for the RAM statistics and for the
CPU statistics of the results block. -/
theorem c5_estatisticas (tempoTotal : ℚ) (ram cpu : List ℚ)
    (hr : ram ≠ []) (hc : cpu ≠ [])
    (hr0 : ∀ x ∈ ram, 0 ≤ x) (hc0 : ∀ x ∈ cpu, 0 ≤ x) :
    ((montarResumo tempoTotal ram cpu).ramPico ∈ ram ∧
      ∀ x ∈ ram, x ≤ (montarResumo tempoTotal ram cpu).ramPico) ∧
    (montarResumo tempoTotal ram cpu).ramMedia = ram.sum / ram.length ∧
    (montarResumo tempoTotal ram cpu).ramMedia
      ≤ (montarResumo tempoTotal ram cpu).ramPico ∧
    0 ≤ (montarResumo tempoTotal ram cpu).ramMedia ∧
    ((montarResumo tempoTotal ram cpu).cpuPico ∈ cpu ∧
      ∀ x ∈ cpu, x ≤ (montarResumo tempoTotal ram cpu).cpuPico) ∧
    (montarResumo tempoTotal ram cpu).cpuMedia = cpu.sum / cpu.length ∧
    (montarResumo tempoTotal ram cpu).cpuMedia
      ≤ (montarResumo tempoTotal ram cpu).cpuPico ∧
    0 ≤ (montarResumo tempoTotal ram cpu).cpuMedia := by
  exact ⟨⟨pico_mem ram hr, fun x hx => le_pico ram x hx⟩, rfl,
    media_le_pico ram hr, media_nonneg ram hr0,
    ⟨pico_mem cpu hc, fun x hx => le_pico cpu x hx⟩, rfl,
    media_le_pico cpu hc, media_nonneg cpu hc0⟩

/-- C5 (witness): the statistics relations evaluated on the concrete series
RAM = [2, 5, 3], CPU = [1, 4]. -/
theorem c5_estatisticas_testemunha :
    (montarResumo 1 [2, 5, 3] [1, 4]).ramPico ∈ ([2, 5, 3] : List ℚ) ∧
    (montarResumo 1 [2, 5, 3] [1, 4]).ramMedia
      ≤ (montarResumo 1 [2, 5, 3] [1, 4]).ramPico ∧
    0 ≤ (montarResumo 1 [2, 5, 3] [1, 4]).ramMedia ∧
    (montarResumo 1 [2, 5, 3] [1, 4]).cpuMedia
      ≤ (montarResumo 1 [2, 5, 3] [1, 4]).cpuPico := by
  have h := c5_estatisticas 1 [2, 5, 3] [1, 4]
    (by decide) (by decide) (by decide) (by decide)
  exact ⟨h.1.1, h.2.2.1, h.2.2.2.1, h.2.2.2.2.2.2.1⟩

/-- C6 (confirmed): whenever the loop ends by the timeout branch or by the
KeyboardInterrupt handler — the two terminal transitions that leave a
still-running target — `processo_alvo.terminate()` has been called; the
`concluido` exit happens only after `poll()` has confirmed the exit, so the
target is never left orphaned. -/
theorem c6_terminate (cfg : Nat → Configuracoes) (tiques : List Tique)
    (i : Nat) (st : EstadoExecucao)
    (h : (rodarLoop cfg tiques i st).motivo = Motivo.timeout ∨
         (rodarLoop cfg tiques i st).motivo = Motivo.interrompido) :
    (rodarLoop cfg tiques i st).terminateChamado = true := by
  induction tiques generalizing i st with
  | nil => simp [rodarLoop] at h
  | cons t resto ih =>
    cases hI : t.interrompido with
    | true => simp [rodarLoop, hI]
    | false =>
      cases hE : t.encerrado with
      | true => simp [rodarLoop, hI, hE] at h
      | false =>
        by_cases hT : timeoutExpirado (cfg i).timeoutSegundos t.tempoExec = true
        · simp [rodarLoop, hI, hE, hT]
        · cases hA : t.amostraPrincipal with
          | none => simp [rodarLoop, hI, hE, hT, hA] at h
          | some mc =>
            simp only [rodarLoop, hI, hE, hA, Bool.false_eq_true, if_false,
              hT, if_neg] at h ⊢
            exact ih (i + 1) (passoAmostra (cfg i) t mc.1 mc.2 st) h

/-- C6 (witness): concrete timeout run — the target outlives the one-second
timeout and `terminate()` is called on loop exit. -/
theorem c6_terminate_testemunha :
    (rodarLoop (fun _ => { configuracoesPadrao with timeoutSegundos := some 1 })
        [tiqueLimpo 2] 0 estadoInicial).terminateChamado = true :=
  c6_terminate (fun _ => { configuracoesPadrao with timeoutSegundos := some 1 })
    [tiqueLimpo 2] 0 estadoInicial (Or.inl (by decide))

/-- C7 (confirmed): a descendant whose metric query raises
`psutil.NoSuchProcess` (it exited between `proc.children(recursive=True)`
enumeration and the read) is absorbed by the `except psutil.NoSuchProcess:
pass` handler: it contributes zero to aggregated memory and CPU, and a run
over the same trace with that descendant removed from the tick's enumeration
is identical — the failure is never fatal to the sample or the run. -/
theorem c7_filho_desaparecido (m0 c0 : ℚ) (q : Option ℚ)
    (l1 l2 : List Filho) (intr enc : Bool) (te : ℚ)
    (ap : Option (ℚ × ℚ)) (resto : List Tique)
    (cfg : Nat → Configuracoes) (i : Nat) (st : EstadoExecucao) :
    agregarFilhos m0 c0 (l1 ++ ⟨none, q⟩ :: l2) = agregarFilhos m0 c0 (l1 ++ l2) ∧
    rodarLoop cfg (⟨intr, enc, te, ap, l1 ++ ⟨none, q⟩ :: l2⟩ :: resto) i st
      = rodarLoop cfg (⟨intr, enc, te, ap, l1 ++ l2⟩ :: resto) i st := by
  have hag : ∀ a b : ℚ,
      agregarFilhos a b (l1 ++ ⟨none, q⟩ :: l2) = agregarFilhos a b (l1 ++ l2) := by
    intro a b
    simp [agregarFilhos, List.foldl_append, acumularFilho_none]
  refine ⟨hag m0 c0, ?_⟩
  cases hI : intr with
  | true => simp [rodarLoop, hI]
  | false =>
    cases hE : enc with
    | true => simp [rodarLoop, hI, hE]
    | false =>
      cases hA : ap with
      | none => simp [rodarLoop, hI, hE, hA]
      | some mc =>
        have hp : passoAmostra (cfg i)
              ⟨false, false, te, some mc, l1 ++ ⟨none, q⟩ :: l2⟩ mc.1 mc.2 st
            = passoAmostra (cfg i)
              ⟨false, false, te, some mc, l1 ++ l2⟩ mc.1 mc.2 st := by
          simp [passoAmostra, hag]
        simp [rodarLoop, hI, hE, hA, hp]

/-- C8 (confirmed): the CSV produced by an export-enabled run has the header
`tempo_segundos,ram_mb,cpu_percent`, exactly one data row per collected
sample, and each row carries elapsed seconds and memory MB rounded to 2
decimals and CPU percent rounded to 1 decimal, so parsing a row back
recovers the original values to within half a unit in the last written
decimal place (1/200 for elapsed and memory, 1/20 for CPU). -/
theorem c8_csv (c : Configuracoes) (hc : c.exportarCSV = true)
    (tiques : List Tique) (t m cp : ℚ) :
    cabecalhoCSV = "tempo_segundos,ram_mb,cpu_percent" ∧
    (rodarLoop (fun _ => c) tiques 0 estadoInicial).estado.dadosCSV.length
      = (rodarLoop (fun _ => c) tiques 0 estadoInicial).estado.medidasRAM.length ∧
    |(linhaCSV t m cp).1 - t| ≤ 1 / 200 ∧
    |(linhaCSV t m cp).2.1 - m| ≤ 1 / 200 ∧
    |(linhaCSV t m cp).2.2 - cp| ≤ 1 / 20 := by
  exact ⟨rfl, rodarLoop_csv_len c hc tiques 0 estadoInicial rfl,
    arred2_prox t, arred2_prox m, arred1_prox cp⟩

/-- C8 (witness): the CSV guarantees evaluated on a concrete export-enabled
one-tick run and the concrete sample (1/3 s, 2 MB, 3 %). -/
theorem c8_csv_testemunha :
    cabecalhoCSV = "tempo_segundos,ram_mb,cpu_percent" ∧
    (rodarLoop (fun _ => { configuracoesPadrao with exportarCSV := true })
        [tiqueExemplo] 0 estadoInicial).estado.dadosCSV.length
      = (rodarLoop (fun _ => { configuracoesPadrao with exportarCSV := true })
        [tiqueExemplo] 0 estadoInicial).estado.medidasRAM.length ∧
    |(linhaCSV (1 / 3) 2 3).1 - 1 / 3| ≤ 1 / 200 ∧
    |(linhaCSV (1 / 3) 2 3).2.1 - 2| ≤ 1 / 200 ∧
    |(linhaCSV (1 / 3) 2 3).2.2 - 3| ≤ 1 / 20 :=
  c8_csv { configuracoesPadrao with exportarCSV := true } rfl
    [tiqueExemplo] (1 / 3) 2 3

/-- C9 (confirmed): a target path that does not end in `.py` has the suffix
appended before launch and the process is launched as `python <path>.py`; a
path already ending in `.py` is launched unchanged as `python <path>`. -/
theorem c9_extensao (a : String) :
    (terminaCom a extensaoPy = true →
      comandoLancamento a = [interpretador, a]) ∧
    (terminaCom a extensaoPy = false →
      comandoLancamento a = [interpretador, a ++ extensaoPy]) := by
  constructor
  · intro h; simp [comandoLancamento, ajustarArquivo, h]
  · intro h; simp [comandoLancamento, ajustarArquivo, h]

/-- C9 (witness): the concrete paths of the two cases — `teste.py` launched
unchanged, `teste` launched with the suffix appended. -/
theorem c9_extensao_testemunha :
    comandoLancamento arquivoExemplo = [interpretador, arquivoExemplo] ∧
    comandoLancamento nomeExemplo = [interpretador, nomeExemplo ++ extensaoPy] :=
  ⟨(c9_extensao arquivoExemplo).1 (by decide),
   (c9_extensao nomeExemplo).2 (by decide)⟩

/-- C10 (confirmed): a timeout of 0 reaching the loop is falsy in the Python
test `configuracoes["timeout_segundos"] and tempo_exec > ...`, exactly like
`None`: the timeout branch never fires, and a run configured with timeout 0
is identical, state and termination alike, to the same run with no timeout. -/
theorem c10_timeout_zero (c : Configuracoes) (e : ℚ) (tiques : List Tique)
    (i : Nat) (st : EstadoExecucao) :
    timeoutExpirado (some 0) e = false ∧
    rodarLoop (fun _ => { c with timeoutSegundos := some 0 }) tiques i st
      = rodarLoop (fun _ => { c with timeoutSegundos := none }) tiques i st := by
  refine ⟨timeoutExpirado_zero e, ?_⟩
  induction tiques generalizing i st with
  | nil => rfl
  | cons t resto ih =>
    cases hI : t.interrompido with
    | true => simp [rodarLoop, hI]
    | false =>
      cases hE : t.encerrado with
      | true => simp [rodarLoop, hI, hE]
      | false =>
        cases hA : t.amostraPrincipal with
        | none =>
          simp [rodarLoop, hI, hE, hA, timeoutExpirado_zero, timeoutExpirado]
        | some mc =>
          simp [rodarLoop, hI, hE, hA, timeoutExpirado_zero, timeoutExpirado,
            passoAmostra_timeout, ih]

end ProcessMetrics
